import Mathlib

/-!
# DataCollector (src/collector.js): shallow embedding and verified properties

The JavaScript class `DataCollector` is embedded as pure Lean functions over explicit
state.  Host facilities (event delivery, `Date.now()`, the canvas, the audio graph, the
3D context) are inputs: an event carries the value `Date.now()` returned inside its
handler, and a host stub is a record of functions.  A JavaScript exception is the
`error` case of `Except JSError`, and `try { .. } catch (e) { .. }` is `tryCatch`.
-/

namespace DataCollector

/-! ## Exceptions -/

/-- A thrown JavaScript value. -/
structure JSError where
  message : String
deriving DecidableEq, Repr

/-- The statement `try { body } catch (e) { handler }`. -/
def tryCatch {α : Type} (body : Except JSError α) (handler : JSError → Except JSError α) :
    Except JSError α :=
  match body with
  | .ok a => .ok a
  | .error e => handler e

/-- Whether a computation finished by `return` rather than by `throw`. -/
def returns {α : Type} : Except JSError α → Bool
  | .ok _ => true
  | .error _ => false

/-! ## trackMouseMovement (lines 104-119) -/

/-- The object literal pushed by the handler of `trackMouseMovement`. -/
structure PointerSample where
  x : Int
  y : Int
  timestamp : Int
deriving DecidableEq, Repr

/-- A delivered `mousemove` event: `e.clientX`, `e.clientY`, and the value `Date.now()`
returns while its handlers run. -/
structure MouseMove where
  clientX : Int
  clientY : Int
  now : Int
deriving DecidableEq, Repr

/-- The arrays created by `trackMouseMovement` and its handler, by allocation index, and
the closure variable `mouseData`, which holds a reference to one of them.  Arrays are
objects: `push` changes the array in place, `slice` allocates a new one. -/
structure MouseTracker where
  heap : List (List PointerSample)
  mouseData : Nat
deriving DecidableEq, Repr

/-- The array a reference points to. -/
def MouseTracker.deref (t : MouseTracker) (ref : Nat) : List PointerSample :=
  t.heap.getD ref []

/-- The array currently held by the closure variable `mouseData`. -/
def MouseTracker.buffer (t : MouseTracker) : List PointerSample :=
  t.deref t.mouseData

/-- The call `Array.prototype.slice(-50)`: the elements from index `max(length - 50, 0)` on. -/
def sliceLast50 (xs : List PointerSample) : List PointerSample :=
  xs.drop (xs.length - 50)

/-- The statement `let mouseData = [];` (line 105): one fresh empty array, referenced by `mouseData`.
Line 118 stores the same reference, `0`, in `collectedData.mouseTracking`. -/
def trackMouseMovement : MouseTracker :=
  { heap := [[]], mouseData := 0 }

/-- The reference line 118 assigns to `collectedData.mouseTracking`. -/
def trackMouseMovementRef : Nat := trackMouseMovement.mouseData

/-- The object literal of lines 107-111. -/
def pointerSample (e : MouseMove) : PointerSample :=
  { x := e.clientX, y := e.clientY, timestamp := e.now }

/-- The `mousemove` handler registered at line 106: push the sample onto the array
`mouseData` refers to; if that array is now longer than 50, rebind `mouseData` to a
freshly allocated `slice(-50)` of it. -/
def mouseTrackingHandler (t : MouseTracker) (e : MouseMove) : MouseTracker :=
  let pushed := t.buffer ++ [pointerSample e]
  let heap1 := t.heap.set t.mouseData pushed
  if pushed.length > 50 then
    { heap := heap1 ++ [sliceLast50 pushed], mouseData := heap1.length }
  else
    { heap := heap1, mouseData := t.mouseData }

/-- The tracker after the handler has run on each event of a delivery sequence. -/
def deliverMouseMoves (t : MouseTracker) (events : List MouseMove) : MouseTracker :=
  events.foldl mouseTrackingHandler t

/-- The array `collectedData.mouseTracking` refers to: the one line 118 stored, which no
later statement reassigns. -/
def mouseTrackingArray (t : MouseTracker) : List PointerSample :=
  t.deref trackMouseMovementRef

/-- The relation between a tracker and the samples delivered so far: the reference
`mouseData` is valid, the array behind `collectedData.mouseTracking` holds the first 51
samples, and `mouseData` still refers to that array exactly while at most 50 samples have
been delivered. -/
structure Exposed (t : MouseTracker) (samples : List PointerSample) : Prop where
  valid : t.mouseData < t.heap.length
  array : mouseTrackingArray t = samples.take 51
  shared : t.mouseData = 0 ↔ samples.length ≤ 50

/-! ## JavaScript values -/

/-- A JavaScript value a host stub hands back and the collector stores without looking
inside: a primitive, an array of numbers or of strings, or a reference to some other
object. -/
inductive JSValue
  | undefined
  | null
  | bool (b : Bool)
  | num (q : ℚ)
  | str (s : String)
  | nums (xs : List ℚ)
  | strs (xs : List String)
  | object (ref : Nat)
deriving DecidableEq, Repr

/-- The assignment `obj[key] = value` on an object with string keys: an own key keeps its
place and takes the new value, a new key goes last. -/
def setProp {α : Type} (obj : List (String × α)) (key : String) (value : α) :
    List (String × α) :=
  match obj with
  | [] => [(key, value)]
  | (k, v) :: rest => if k = key then (k, value) :: rest else (k, v) :: setProp rest key value

/-- The property read `obj[key]`, `none` standing for `undefined` on a missing key. -/
def getProp {α : Type} (obj : List (String × α)) (key : String) : Option α :=
  match obj with
  | [] => none
  | (k, v) :: rest => if k = key then some v else getProp rest key

/-- The own keys of an object, `Object.keys(obj)`. -/
def keys {α : Type} (obj : List (String × α)) : List String :=
  obj.map Prod.fst

/-! ## setupBehaviorTracking (lines 223-276) -/

/-- A `keydown` event with `Date.now()` at its delivery. -/
structure KeyEvent where
  key : String
  code : String
  ctrlKey : Bool
  altKey : Bool
  shiftKey : Bool
  now : Int
deriving DecidableEq, Repr

/-- The object pushed onto `behaviorData.keystrokes`. -/
structure Keystroke where
  key : String
  code : String
  timestamp : Int
  ctrlKey : Bool
  altKey : Bool
  shiftKey : Bool
deriving DecidableEq, Repr

/-- A `click` event with `e.target.tagName` and `Date.now()` at its delivery. -/
structure ClickEvent where
  clientX : Int
  clientY : Int
  button : Int
  tagName : String
  now : Int
deriving DecidableEq, Repr

/-- The object pushed onto `behaviorData.clicks`. -/
structure Click where
  x : Int
  y : Int
  button : Int
  timestamp : Int
  target : String
deriving DecidableEq, Repr

/-- A `scroll` event: `window.scrollX`, `window.scrollY` and `Date.now()` at delivery. -/
structure ScrollEvent where
  scrollX : Int
  scrollY : Int
  now : Int
deriving DecidableEq, Repr

/-- The object pushed onto `behaviorData.scrolls`. -/
structure Scroll where
  scrollX : Int
  scrollY : Int
  timestamp : Int
deriving DecidableEq, Repr

/-- The object pushed onto `behaviorData.focus`; `type` is `'focus'` or `'blur'`. -/
structure FocusChange where
  type : String
  timestamp : Int
deriving DecidableEq, Repr

/-- The JavaScript number `Math.sqrt(n) / d` for an integer `n ≥ 0` and an integer `d`.
The two results of a division by zero, `NaN` and `Infinity`, are values of their own.  For
`d ≠ 0` the double is not computed: `sqrtOver n d` names, by its operands, whatever the
host's floating-point arithmetic yields for `Math.sqrt(n) / d`. -/
inductive JSNumber
  | nan
  | infinity
  | sqrtOver (radicand : Nat) (divisor : Int)
deriving DecidableEq, Repr

/-- The test `Number.isFinite`: false on `NaN` and `Infinity`; an unevaluated quotient by
a nonzero divisor counts as finite, which it is unless a step of its evaluation
overflows. -/
def JSNumber.isFinite : JSNumber → Bool
  | .nan => false
  | .infinity => false
  | .sqrtOver _ _ => true

/-- Whether the number is zero (`+0` or `-0`). -/
def JSNumber.isZero : JSNumber → Bool
  | .sqrtOver n _ => n == 0
  | _ => false

/-- The quotient `Math.sqrt(n) / d` of line 267, where `d` is a difference of two integer
timestamps (`+0` when they are equal): `0 / 0` is `NaN`, a positive number over `0` is
`Infinity`, and a quotient by a nonzero divisor is left unevaluated. -/
def sqrtDiv (n : Nat) (d : Int) : JSNumber :=
  if d = 0 then (if n = 0 then .nan else .infinity) else .sqrtOver n d

/-- The closure variable `lastMousePos` (line 262). -/
structure LastMousePos where
  x : Int
  y : Int
  time : Int
deriving DecidableEq, Repr

/-- The object pushed onto `behaviorData.mouseSpeed`. -/
structure SpeedSample where
  speed : JSNumber
  timestamp : Int
deriving DecidableEq, Repr

/-- The field `this.behaviorData`: five arrays. -/
structure BehaviorData where
  keystrokes : List Keystroke
  clicks : List Click
  scrolls : List Scroll
  focus : List FocusChange
  mouseSpeed : List SpeedSample
deriving DecidableEq, Repr

/-- The object literal of five empty arrays (lines 4-10 and 619-625). -/
def BehaviorData.empty : BehaviorData :=
  { keystrokes := [], clicks := [], scrolls := [], focus := [], mouseSpeed := [] }

/-- The statement `let lastMousePos = {x: 0, y: 0, time: Date.now()}` (line 262). -/
def initialLastMousePos (now : Int) : LastMousePos :=
  { x := 0, y := 0, time := now }

/-- The argument of `Math.sqrt` at line 265: the sum of the two squared differences. -/
def squaredDistance (last : LastMousePos) (e : MouseMove) : Nat :=
  ((e.clientX - last.x) ^ 2 + (e.clientY - last.y) ^ 2).toNat

/-- The value of `speed` (lines 264-267): `distance / time` with `time = now - lastMousePos.time`. -/
def mouseSpeed (last : LastMousePos) (e : MouseMove) : JSNumber :=
  sqrtDiv (squaredDistance last e) (e.now - last.time)

/-- The `mousemove` handler of `setupBehaviorTracking` (lines 263-275): push the speed
sample, then overwrite `lastMousePos`. -/
def mouseSpeedHandler (b : BehaviorData) (last : LastMousePos) (e : MouseMove) :
    BehaviorData × LastMousePos :=
  ({ b with mouseSpeed := b.mouseSpeed ++ [{ speed := mouseSpeed last e, timestamp := e.now }] },
   { x := e.clientX, y := e.clientY, time := e.now })

/-- The `keydown` handler (lines 224-233). -/
def keydownHandler (b : BehaviorData) (e : KeyEvent) : BehaviorData :=
  { b with keystrokes := b.keystrokes ++
      [{ key := e.key, code := e.code, timestamp := e.now,
         ctrlKey := e.ctrlKey, altKey := e.altKey, shiftKey := e.shiftKey }] }

/-- The `click` handler (lines 236-244). -/
def clickHandler (b : BehaviorData) (e : ClickEvent) : BehaviorData :=
  { b with clicks := b.clicks ++
      [{ x := e.clientX, y := e.clientY, button := e.button, timestamp := e.now,
         target := e.tagName }] }

/-- The `scroll` handler (lines 246-252). -/
def scrollHandler (b : BehaviorData) (e : ScrollEvent) : BehaviorData :=
  { b with scrolls := b.scrolls ++
      [{ scrollX := e.scrollX, scrollY := e.scrollY, timestamp := e.now }] }

/-- The `focus` handler (lines 254-256). -/
def focusHandler (b : BehaviorData) (now : Int) : BehaviorData :=
  { b with focus := b.focus ++ [{ type := "focus", timestamp := now }] }

/-- The `blur` handler (lines 258-260). -/
def blurHandler (b : BehaviorData) (now : Int) : BehaviorData :=
  { b with focus := b.focus ++ [{ type := "blur", timestamp := now }] }

/-! ## getFonts (lines 329-358) -/

/-- A value read off a text measurement: `undefined` (a property the metrics object
lacks), `NaN`, or a finite number. -/
inductive Metric
  | undefined
  | nan
  | num (q : ℚ)
deriving DecidableEq, Repr

/-- The operator `a !== b` on such values: `NaN` differs from everything, itself included;
otherwise two values differ when they are not the same value. -/
def strictNe (a b : Metric) : Bool :=
  match a, b with
  | .nan, _ => true
  | _, .nan => true
  | a, b => decide (a ≠ b)

/-- What `ctx.measureText(testString)` returns: the properties `width` and `height`. -/
structure TextMetrics where
  width : Metric
  height : Metric
deriving DecidableEq, Repr

/-- The array `testFonts` (line 330). -/
def testFonts : List String :=
  ["Arial", "Helvetica", "Times", "Courier", "Verdana", "Georgia", "Palatino", "Garamond",
   "Bookman", "Comic Sans MS", "Trebuchet MS", "Arial Black", "Impact"]

/-- The array `baseFonts` (line 333). -/
def baseFonts : List String := ["monospace", "sans-serif", "serif"]

/-- The constant `testSize` (line 335). -/
def testSize : String := "72px"

/-- The value given to `ctx.font` at line 340 for a baseline family. -/
def baseFontSpec (base : String) : String :=
  testSize ++ " " ++ base

/-- The value given to `ctx.font` at line 349 for a candidate and a baseline family. -/
def stackFontSpec (font base : String) : String :=
  testSize ++ " " ++ font ++ "," ++ base

/-- A read `s[key]` or `h[key]` of a baseline table, `undefined` on a missing key. -/
def baseline (table : List (String × Metric)) (key : String) : Metric :=
  (getProp table key).getD .undefined

/-- The first loop (lines 339-343): the tables `s` (widths) and `h` (heights). -/
def measureBaselines (measureText : String → TextMetrics) :
    List (String × Metric) × List (String × Metric) :=
  baseFonts.foldl
    (fun sh base =>
      (setProp sh.1 base (measureText (baseFontSpec base)).width,
       setProp sh.2 base (measureText (baseFontSpec base)).height))
    ([], [])

/-- The inner loop (lines 347-352): the final value of `detected` for one candidate. -/
def detectFont (measureText : String → TextMetrics) (s h : List (String × Metric))
    (font : String) : Bool :=
  baseFonts.foldl
    (fun detected base =>
      let matched :=
        strictNe (measureText (stackFontSpec font base)).width (baseline s base) ||
        strictNe (measureText (stackFontSpec font base)).height (baseline h base)
      detected || matched)
    false

/-- The method `getFonts`, over the stub `measureText`, which maps the current value of
`ctx.font` to the metrics of the fixed test string. -/
def getFonts (measureText : String → TextMetrics) : List String :=
  let sh := measureBaselines measureText
  testFonts.foldl
    (fun fonts font => if detectFont measureText sh.1 sh.2 font then fonts ++ [font] else fonts)
    []

/-! ## checkAPI and getAvailableAPIs (lines 413-452) -/

/-- The platform state `checkAPI` looks at: `typeof name !== 'undefined'` for a global
name, `'name' in navigator` and `'name' in window`. -/
structure Platform where
  globalDefined : String → Bool
  inNavigator : String → Bool
  inWindow : String → Bool

/-- The method `checkAPI` (lines 430-452). -/
def checkAPI (p : Platform) (api : String) : Bool :=
  match api with
  | "fetch" => p.globalDefined "fetch"
  | "XMLHttpRequest" => p.globalDefined "XMLHttpRequest"
  | "WebSocket" => p.globalDefined "WebSocket"
  | "Worker" => p.globalDefined "Worker"
  | "SharedWorker" => p.globalDefined "SharedWorker"
  | "ServiceWorker" => p.inNavigator "serviceWorker"
  | "IndexedDB" => p.inWindow "indexedDB"
  | "WebSQL" => p.inWindow "openDatabase"
  | "Notification" => p.inWindow "Notification"
  | "PushManager" => p.inWindow "PushManager"
  | "Vibration" => p.inNavigator "vibrate"
  | "Geolocation" => p.inNavigator "geolocation"
  | "DeviceMotion" => p.inWindow "DeviceMotionEvent"
  | "DeviceOrientation" => p.inWindow "DeviceOrientationEvent"
  | "Battery" => p.inNavigator "getBattery"
  | "NetworkInformation" => p.inNavigator "connection"
  | "SpeechRecognition" => p.inWindow "SpeechRecognition" || p.inWindow "webkitSpeechRecognition"
  | "SpeechSynthesis" => p.inWindow "speechSynthesis"
  | _ => false

/-- The `case` labels of the `switch` in `checkAPI`, in source order. -/
def dispatchNames : List String :=
  ["fetch", "XMLHttpRequest", "WebSocket", "Worker", "SharedWorker", "ServiceWorker",
   "IndexedDB", "WebSQL", "Notification", "PushManager", "Vibration", "Geolocation",
   "DeviceMotion", "DeviceOrientation", "Battery", "NetworkInformation",
   "SpeechRecognition", "SpeechSynthesis"]

/-- The array `apis` of `getAvailableAPIs` (lines 414-420). -/
def apis : List String :=
  ["fetch", "XMLHttpRequest", "WebSocket", "Worker", "SharedWorker", "ServiceWorker",
   "IndexedDB", "WebSQL", "FileReader", "Blob", "FormData", "URLSearchParams",
   "Notification", "PushManager", "Vibration", "GamepadAPI", "WebVR", "WebXR",
   "SpeechRecognition", "SpeechSynthesis", "Geolocation", "DeviceMotion",
   "DeviceOrientation", "AmbientLight", "Proximity", "Battery", "NetworkInformation"]

/-- The method `getAvailableAPIs` (lines 413-428). -/
def getAvailableAPIs (p : Platform) : List (String × Bool) :=
  apis.foldl (fun available api => setProp available api (checkAPI p api)) []

/-- The array `properties` of `getCSSFeatures` (line 404). -/
def properties : List String :=
  ["transform", "transition", "animation", "filter", "backdrop-filter", "grid", "flex"]

/-- The method `getCSSFeatures` (lines 401-411), over the stub of `CSS.supports(prop, 'initial')`. -/
def getCSSFeatures (cssSupports : String → Bool) : List (String × Bool) :=
  properties.foldl (fun features prop => setProp features prop (cssSupports prop)) []

/-! ## getAudioFingerprint (lines 360-386) -/

/-- A stub of the audio subsystem: the outcome of each statement inside the `try` block,
in source order.  `construct` is `new (window.AudioContext || window.webkitAudioContext)()`,
which throws when neither constructor exists; a read of `audioCtx.destination.x` throws
when `destination` is missing. -/
structure AudioHost where
  construct : Except JSError Unit
  createOscillator : Except JSError Unit
  createAnalyser : Except JSError Unit
  createGain : Except JSError Unit
  createScriptProcessor : Except JSError Unit
  setGainValue : Except JSError Unit
  setOscillatorType : Except JSError Unit
  connectOscillator : Except JSError Unit
  connectAnalyser : Except JSError Unit
  connectScriptProcessor : Except JSError Unit
  connectGain : Except JSError Unit
  start : Except JSError Unit
  sampleRate : Except JSError JSValue
  maxChannelCount : Except JSError JSValue
  numberOfInputs : Except JSError JSValue
  numberOfOutputs : Except JSError JSValue
  channelCount : Except JSError JSValue

/-- The object literal returned at lines 376-382. -/
structure AudioRecord where
  sampleRate : JSValue
  maxChannelCount : JSValue
  numberOfInputs : JSValue
  numberOfOutputs : JSValue
  channelCount : JSValue
deriving DecidableEq, Repr

/-- What `getAudioFingerprint` returns: the string `'not_available'` or the record. -/
inductive AudioFingerprint
  | notAvailable
  | record (r : AudioRecord)
deriving DecidableEq, Repr

/-- The statements of the `try` block that build and start the graph (lines 362-374). -/
def buildAudioGraph (a : AudioHost) : Except JSError Unit := do
  a.construct
  a.createOscillator
  a.createAnalyser
  a.createGain
  a.createScriptProcessor
  a.setGainValue
  a.setOscillatorType
  a.connectOscillator
  a.connectAnalyser
  a.connectScriptProcessor
  a.connectGain
  a.start

/-- The `return` statement of the `try` block (lines 376-382). -/
def readAudioConfig (a : AudioHost) : Except JSError AudioFingerprint := do
  let sampleRate ← a.sampleRate
  let maxChannelCount ← a.maxChannelCount
  let numberOfInputs ← a.numberOfInputs
  let numberOfOutputs ← a.numberOfOutputs
  let channelCount ← a.channelCount
  pure (.record { sampleRate := sampleRate, maxChannelCount := maxChannelCount,
                  numberOfInputs := numberOfInputs, numberOfOutputs := numberOfOutputs,
                  channelCount := channelCount })

/-- The method `getAudioFingerprint`. -/
def getAudioFingerprint (a : AudioHost) : Except JSError AudioFingerprint :=
  tryCatch (do buildAudioGraph a; readAudioConfig a) (fun _ => pure .notAvailable)

/-- The statements that build and start the graph, as a list, in source order. -/
def graphSteps (a : AudioHost) : List (Except JSError Unit) :=
  [a.construct, a.createOscillator, a.createAnalyser, a.createGain, a.createScriptProcessor,
   a.setGainValue, a.setOscillatorType, a.connectOscillator, a.connectAnalyser,
   a.connectScriptProcessor, a.connectGain, a.start]

/-- The five property reads of the returned object literal, as a list, in source order. -/
def configReads (a : AudioHost) : List (Except JSError JSValue) :=
  [a.sampleRate, a.maxChannelCount, a.numberOfInputs, a.numberOfOutputs, a.channelCount]

/-! ## The 3D context probes (lines 533-542 and 573-607) -/

/-- A stub of a 3D rendering context: the property read `gl[name]` of an enumeration
constant, and the methods `getParameter` and `getSupportedExtensions`, either of which may
throw. -/
structure GLContext where
  constant : String → JSValue
  getParameter : JSValue → Except JSError JSValue
  getSupportedExtensions : Except JSError JSValue

/-- The expression `gl.getParameter(gl[name])`. -/
def GLContext.read (gl : GLContext) (name : String) : Except JSError JSValue :=
  gl.getParameter (gl.constant name)

/-- The array `params` of `getWebGLParameters` (lines 591-598). -/
def params : List String :=
  ["MAX_TEXTURE_SIZE", "MAX_VERTEX_ATTRIBS", "MAX_VERTEX_UNIFORM_VECTORS",
   "MAX_VARYING_VECTORS", "MAX_FRAGMENT_UNIFORM_VECTORS", "MAX_VERTEX_TEXTURE_IMAGE_UNITS",
   "MAX_TEXTURE_IMAGE_UNITS", "MAX_COMBINED_TEXTURE_IMAGE_UNITS", "MAX_CUBE_MAP_TEXTURE_SIZE",
   "MAX_RENDERBUFFER_SIZE", "MAX_VIEWPORT_DIMS", "ALIASED_LINE_WIDTH_RANGE",
   "ALIASED_POINT_SIZE_RANGE", "RED_BITS", "GREEN_BITS", "BLUE_BITS", "ALPHA_BITS",
   "DEPTH_BITS", "STENCIL_BITS"]

/-- The callback of `params.forEach` (lines 600-604): one guarded parameter read. -/
def readParameter (gl : GLContext) (parameters : List (String × JSValue)) (param : String) :
    Except JSError (List (String × JSValue)) :=
  tryCatch
    (do let value ← gl.read param
        pure (setProp parameters param value))
    (fun _ => pure parameters)

/-- The method `getWebGLParameters` (lines 589-607). -/
def getWebGLParameters (gl : GLContext) : Except JSError (List (String × JSValue)) :=
  params.foldlM (readParameter gl) []

/-- The object literal stored in `collectedData.webglExtended` (lines 578-585). -/
structure WebGLExtended where
  vendor : JSValue
  renderer : JSValue
  version : JSValue
  shadingLanguageVersion : JSValue
  extensions : JSValue
  parameters : List (String × JSValue)
deriving DecidableEq, Repr

/-- The object literal of lines 578-585, its properties evaluated in source order. -/
def readWebGLExtended (gl : GLContext) : Except JSError WebGLExtended := do
  let vendor ← gl.read "VENDOR"
  let renderer ← gl.read "RENDERER"
  let version ← gl.read "VERSION"
  let shadingLanguageVersion ← gl.read "SHADING_LANGUAGE_VERSION"
  let extensions ← gl.getSupportedExtensions
  let parameters ← getWebGLParameters gl
  pure { vendor := vendor, renderer := renderer, version := version,
         shadingLanguageVersion := shadingLanguageVersion, extensions := extensions,
         parameters := parameters }

/-- The object literal returned by `getWebGLFingerprint` (lines 537-541). -/
structure WebGLRecord where
  vendor : JSValue
  renderer : JSValue
  version : JSValue
deriving DecidableEq, Repr

/-- What `getWebGLFingerprint` returns: the string `'not supported'` or the record. -/
inductive WebGLFingerprint
  | notSupported
  | record (r : WebGLRecord)
deriving DecidableEq, Repr

/-- The method `getWebGLFingerprint` (lines 533-542), over the stub of
`canvas.getContext(name)`, where `none` is `null`. -/
def getWebGLFingerprint (getContext : String → Option GLContext) :
    Except JSError WebGLFingerprint :=
  match getContext "webgl" with
  | none => pure .notSupported
  | some gl => do
    let vendor ← gl.read "VENDOR"
    let renderer ← gl.read "RENDERER"
    let version ← gl.read "VERSION"
    pure (.record { vendor := vendor, renderer := renderer, version := version })

/-- The expression `canvas.getContext('webgl') || canvas.getContext('experimental-webgl')`
(line 575). -/
def webglContext (getContext : String → Option GLContext) : Option GLContext :=
  match getContext "webgl" with
  | some gl => some gl
  | none => getContext "experimental-webgl"

/-! ## The collector: state, init, collectAllData, updateDisplay, clearData -/

/-- The object literal stored in `collectedData.fingerprinting` (lines 320-326). -/
structure Fingerprinting where
  fonts : List String
  audioContext : AudioFingerprint
  webRTC : JSValue
  css : List (String × Bool)
  apis : List (String × Bool)
deriving DecidableEq, Repr

/-- The object literal stored in `collectedData.fingerprint` (lines 527-530). -/
structure CanvasFingerprint where
  canvas : JSValue
  webgl : WebGLFingerprint
deriving DecidableEq, Repr

/-- The object literal stored in `collectedData.behavior` (lines 553-559): the spread of
`behaviorData` and four more properties. -/
structure BehaviorRecord where
  data : BehaviorData
  timeSpent : JSValue
  pageVisibility : JSValue
  referrer : JSValue
  currentURL : JSValue
deriving DecidableEq, Repr

/-- The object `this.collectedData`.  A property holding a value read straight off the
platform is an entry of `direct`; `none` is a property the object does not have;
`mouseTracking` is a reference into the tracker's arrays. -/
structure CollectedData where
  direct : List (String × JSValue)
  mouseTracking : Option Nat
  fingerprinting : Option Fingerprinting
  fingerprint : Option CanvasFingerprint
  behavior : Option BehaviorRecord
  webglExtended : Option WebGLExtended
deriving DecidableEq, Repr

/-- The empty object `{}` (lines 3 and 618). -/
def CollectedData.empty : CollectedData :=
  { direct := [], mouseTracking := none, fingerprinting := none, fingerprint := none,
    behavior := none, webglExtended := none }

/-- The object `output` of `updateDisplay` (lines 610-613), the record shown to the
reader: the properties of `collectedData`, with `behavior` replaced by `behaviorData`,
and the `mouseTracking` array as it is when the record is serialised. -/
structure DisplayedRecord where
  direct : List (String × JSValue)
  mouseTracking : Option (List PointerSample)
  fingerprinting : Option Fingerprinting
  fingerprint : Option CanvasFingerprint
  webglExtended : Option WebGLExtended
  behavior : BehaviorData
deriving DecidableEq, Repr

/-- The state of a `DataCollector`: its two fields, the closure variables of its
handlers, and the record last written to the output element. -/
structure Collector where
  collectedData : CollectedData
  behaviorData : BehaviorData
  tracker : MouseTracker
  lastMousePos : LastMousePos
  display : Option DisplayedRecord
deriving DecidableEq, Repr

/-- A stub host.  `directRead key` is the value the collector reads off the platform and
stores unchanged under `collectedData[key]`; `webRTC` is the promise returned by the
asynchronous `getWebRTCFingerprint`; `now` is `Date.now()` during the call. -/
structure Host where
  directRead : String → JSValue
  measureText : String → TextMetrics
  audio : AudioHost
  webRTC : JSValue
  cssSupports : String → Bool
  platform : Platform
  getContext : String → Option GLContext
  canvasDataURL : JSValue
  now : Int

/-- An assignment `this.collectedData[key] = <platform read>`. -/
def storeDirect (h : Host) (d : CollectedData) (key : String) : CollectedData :=
  { d with direct := setProp d.direct key (h.directRead key) }

/-- The method `collectAdvancedFingerprinting` (lines 319-327). -/
def collectAdvancedFingerprinting (h : Host) (d : CollectedData) : Except JSError CollectedData := do
  let fonts := getFonts h.measureText
  let audioContext ← getAudioFingerprint h.audio
  let fingerprinting : Fingerprinting :=
    { fonts := fonts, audioContext := audioContext, webRTC := h.webRTC,
      css := getCSSFeatures h.cssSupports, apis := getAvailableAPIs h.platform }
  pure { d with fingerprinting := some fingerprinting }

/-- The method `updateDisplay` (lines 609-615). -/
def updateDisplay (c : Collector) : Collector :=
  let output : DisplayedRecord :=
    { direct := c.collectedData.direct,
      mouseTracking := c.collectedData.mouseTracking.map c.tracker.deref,
      fingerprinting := c.collectedData.fingerprinting,
      fingerprint := c.collectedData.fingerprint,
      webglExtended := c.collectedData.webglExtended,
      behavior := c.behaviorData }
  { c with display := some output }

/-- The constructor and `init` (lines 2-22), up to the first suspension of each
asynchronous probe: the synchronous platform reads, `trackMouseMovement`,
`setupBehaviorTracking` and `collectAdvancedFingerprinting`, in call order. -/
def init (h : Host) : Except JSError Collector := do
  let d := CollectedData.empty
  let d := storeDirect h d "browser"
  let d := storeDirect h d "screen"
  let d := { d with mouseTracking := some trackMouseMovementRef }
  let d := storeDirect h d "dateTime"
  let d := storeDirect h d "languages"
  let d := storeDirect h d "permissions"
  let d := storeDirect h d "memory"
  let d := storeDirect h d "cpu"
  let d := storeDirect h d "system"
  let d ← collectAdvancedFingerprinting h d
  pure { collectedData := d, behaviorData := BehaviorData.empty,
         tracker := trackMouseMovement, lastMousePos := initialLastMousePos h.now,
         display := none }

/-- The method `fingerprintCanvas` (lines 519-531). -/
def fingerprintCanvas (h : Host) (d : CollectedData) : Except JSError CollectedData := do
  let canvas := h.canvasDataURL
  let webgl ← getWebGLFingerprint h.getContext
  pure { d with fingerprint := some { canvas := canvas, webgl := webgl } }

/-- The method `collectBehaviorData` (lines 552-560). -/
def collectBehaviorData (h : Host) (c : Collector) : Collector :=
  let behavior : BehaviorRecord :=
    { data := c.behaviorData, timeSpent := h.directRead "timeSpent",
      pageVisibility := h.directRead "pageVisibility", referrer := h.directRead "referrer",
      currentURL := h.directRead "currentURL" }
  { c with collectedData := { c.collectedData with behavior := some behavior } }

/-- The method `collectWebGLData` (lines 573-587). -/
def collectWebGLData (h : Host) (d : CollectedData) : Except JSError CollectedData :=
  match webglContext h.getContext with
  | some gl => do
    let record ← readWebGLExtended gl
    pure { d with webglExtended := some record }
  | none => pure d

/-- The method `collectAllData` (lines 454-464). -/
def collectAllData (h : Host) (c : Collector) : Except JSError Collector := do
  let d := storeDirect h c.collectedData "device"
  let d := storeDirect h d "network"
  let d := storeDirect h d "storage"
  let d := storeDirect h d "cookies"
  let d ← fingerprintCanvas h d
  let c := collectBehaviorData h { c with collectedData := d }
  let d := storeDirect h c.collectedData "performance"
  let d ← collectWebGLData h d
  pure (updateDisplay { c with collectedData := d })

/-- The method `clearData` (lines 617-632).  The loop of lines 626-630, between the two
assignments and `updateDisplay`, writes only to `document.cookie`, which belongs to the
document and is no part of the collector's state; the document is one whose cookie jar can
be read, so that the loop returns and `updateDisplay` is reached. -/
def clearData (c : Collector) : Collector :=
  updateDisplay { c with collectedData := CollectedData.empty, behaviorData := BehaviorData.empty }

/-- An event the host delivers to the collector's handlers. -/
inductive Event
  | keydown (e : KeyEvent)
  | click (e : ClickEvent)
  | scroll (e : ScrollEvent)
  | focus (now : Int)
  | blur (now : Int)
  | mousemove (e : MouseMove)
deriving DecidableEq, Repr

/-- Delivery of one event: each handler registered for it runs, in registration order
(for `mousemove`, the handler of `trackMouseMovement`, then that of
`setupBehaviorTracking`). -/
def dispatch (c : Collector) : Event → Collector
  | .keydown e => { c with behaviorData := keydownHandler c.behaviorData e }
  | .click e => { c with behaviorData := clickHandler c.behaviorData e }
  | .scroll e => { c with behaviorData := scrollHandler c.behaviorData e }
  | .focus now => { c with behaviorData := focusHandler c.behaviorData now }
  | .blur now => { c with behaviorData := blurHandler c.behaviorData now }
  | .mousemove e =>
    let moved := mouseSpeedHandler c.behaviorData c.lastMousePos e
    { c with tracker := mouseTrackingHandler c.tracker e,
             behaviorData := moved.1, lastMousePos := moved.2 }

/-! ## Stub hosts for concrete runs -/

/-- A measurement stub on which only the stack "Arial,monospace" departs from the common
width; like a browser's metrics object, its results have no `height`. -/
def sampleMeasureText (spec : String) : TextMetrics :=
  if spec = "72px Arial,monospace" then { width := .num 500, height := .undefined }
  else { width := .num 432, height := .undefined }

/-- An audio stub on which every statement succeeds. -/
def sampleAudio : AudioHost :=
  { construct := .ok (), createOscillator := .ok (), createAnalyser := .ok (),
    createGain := .ok (), createScriptProcessor := .ok (), setGainValue := .ok (),
    setOscillatorType := .ok (), connectOscillator := .ok (), connectAnalyser := .ok (),
    connectScriptProcessor := .ok (), connectGain := .ok (), start := .ok (),
    sampleRate := .ok (.num 44100), maxChannelCount := .ok (.num 2),
    numberOfInputs := .ok (.num 1), numberOfOutputs := .ok (.num 0),
    channelCount := .ok (.num 2) }

/-- An audio stub whose autoplay policy rejects `oscillator.start(0)`. -/
def blockedAudio : AudioHost :=
  { sampleAudio with start := .error { message := "NotAllowedError" } }

/-- A 3D context stub with vendor "X", renderer "Y" and extensions ["A", "B"], whose
driver refuses two of the catalog parameters. -/
def sampleGL : GLContext :=
  { constant := fun name => .str name
    getParameter := fun pname =>
      match pname with
      | .str "VENDOR" => .ok (.str "X")
      | .str "RENDERER" => .ok (.str "Y")
      | .str "VERSION" => .ok (.str "WebGL 1.0")
      | .str "SHADING_LANGUAGE_VERSION" => .ok (.str "WebGL GLSL ES 1.0")
      | .str "MAX_TEXTURE_SIZE" => .ok (.num 4096)
      | .str "MAX_VIEWPORT_DIMS" => .error { message := "refused" }
      | .str "STENCIL_BITS" => .error { message := "refused" }
      | .str "ALIASED_LINE_WIDTH_RANGE" => .ok (.nums [1, 1])
      | _ => .ok (.num 8)
    getSupportedExtensions := .ok (.strs ["A", "B"]) }

/-- A 3D context stub whose `getParameter` throws when `VENDOR` is read. -/
def throwingGL : GLContext :=
  { sampleGL with
    getParameter := fun pname =>
      match pname with
      | .str "VENDOR" => .error { message := "context lost" }
      | other => sampleGL.getParameter other }

/-- A platform stub that offers every global and every property asked about. -/
def fullPlatform : Platform :=
  { globalDefined := fun _ => true, inNavigator := fun _ => true, inWindow := fun _ => true }

/-- A stub host built from the stubs above. -/
def sampleHost : Host :=
  { directRead := fun key => .str key
    measureText := sampleMeasureText
    audio := sampleAudio
    webRTC := .object 0
    cssSupports := fun _ => true
    platform := fullPlatform
    getContext := fun name => if name = "webgl" then some sampleGL else none
    canvasDataURL := .str "data:image/png;base64,AAAA"
    now := 1000 }

/-- The same host with the throwing 3D context. -/
def throwingHost : Host :=
  { sampleHost with getContext := fun name => if name = "webgl" then some throwingGL else none }

/-- The state of the sample host's collector once `init` and one `collectAllData` have
run. -/
def sampleCollector : Except JSError Collector :=
  init sampleHost >>= collectAllData sampleHost

/-- A collector on which some events of every category have been recorded since
`init`. -/
def busyCollector : Except JSError Collector := do
  let c ← sampleCollector
  pure ([Event.keydown ⟨"a", "KeyA", false, false, true, 1001⟩,
         Event.click ⟨10, 20, 0, "BUTTON", 1002⟩,
         Event.scroll ⟨0, 120, 1003⟩, Event.focus 1004, Event.blur 1005,
         Event.mousemove ⟨3, 4, 1006⟩].foldl dispatch c)

/-- A 3D context stub whose `getSupportedExtensions` throws. -/
def lostExtensionsGL : GLContext :=
  { sampleGL with getSupportedExtensions := .error { message := "context lost" } }

/-- The sample host with the context whose `getSupportedExtensions` throws. -/
def lostExtensionsHost : Host :=
  { sampleHost with
    getContext := fun name => if name = "webgl" then some lostExtensionsGL else none }

/-- Fifty-one `mousemove` events, one per millisecond, along a line. -/
def fiftyOneMoves : List MouseMove :=
  (List.range 51).map (fun i => { clientX := i, clientY := 2 * i, now := 1001 + i })

/-- The sample host's collector after `init`, the fifty-one moves, and one
`collectAllData`. -/
def afterFiftyOneMoves : Except JSError Collector := do
  let c ← init sampleHost
  collectAllData sampleHost ((fiftyOneMoves.map Event.mousemove).foldl dispatch c)

/-! ## Theorems -/

/-! ### trackMouseMovement -/

/-- A valid reference stays valid across a handler call. -/
theorem mouseTrackingHandler_valid (t : MouseTracker) (e : MouseMove)
    (hv : t.mouseData < t.heap.length) :
    (mouseTrackingHandler t e).mouseData < (mouseTrackingHandler t e).heap.length := by
  unfold mouseTrackingHandler
  simp only []
  split <;> simp [hv]

/-- The array held by `mouseData` after one handler call: the old array with the sample
pushed, cut to its last 50 elements when longer than 50. -/
theorem mouseTrackingHandler_buffer (t : MouseTracker) (e : MouseMove)
    (hv : t.mouseData < t.heap.length) :
    (mouseTrackingHandler t e).buffer =
      if (t.buffer ++ [pointerSample e]).length > 50 then
        sliceLast50 (t.buffer ++ [pointerSample e])
      else t.buffer ++ [pointerSample e] := by
  by_cases h : (t.buffer ++ [pointerSample e]).length > 50
  · simp only [mouseTrackingHandler, if_pos h]
    simp [MouseTracker.buffer, MouseTracker.deref, List.getD]
  · simp only [mouseTrackingHandler, if_neg h]
    simp [MouseTracker.buffer, MouseTracker.deref, List.getD, List.getElem?_set, hv]

/-- One handler call on a buffer of at most 50 samples adds one sample, up to the cap. -/
theorem mouseTrackingHandler_length (t : MouseTracker) (e : MouseMove)
    (hv : t.mouseData < t.heap.length) (hle : t.buffer.length ≤ 50) :
    (mouseTrackingHandler t e).buffer.length = min (t.buffer.length + 1) 50 := by
  rw [mouseTrackingHandler_buffer t e hv]
  split
  · rename_i h
    simp only [sliceLast50, List.length_drop, List.length_append, List.length_singleton] at h ⊢
    omega
  · rename_i h
    simp only [List.length_append, List.length_singleton] at h ⊢
    omega

/-- Delivering events to a tracker whose buffer holds `min n 50` samples leaves it with
`min (n + events.length) 50`. -/
theorem deliverMouseMoves_length (events : List MouseMove) :
    ∀ (t : MouseTracker) (n : Nat), t.mouseData < t.heap.length →
      t.buffer.length = min n 50 →
      (deliverMouseMoves t events).buffer.length = min (n + events.length) 50 := by
  induction events with
  | nil => intro t n _ hlen; simpa [deliverMouseMoves] using hlen
  | cons e es ih =>
    intro t n hv hlen
    have hstep := mouseTrackingHandler_length t e hv (by omega)
    have := ih (mouseTrackingHandler t e) (n + 1) (mouseTrackingHandler_valid t e hv)
      (by rw [hstep, hlen]; omega)
    simp only [deliverMouseMoves, List.foldl_cons, List.length_cons] at this ⊢
    rw [this]
    congr 1
    omega

/-- C1: for every sequence of N mousemove events delivered to the handler registered by
`trackMouseMovement`, the array held by the closure variable `mouseData` after the N-th
handler call has length exactly min(N, 50). -/
theorem mouseData_length_eq_min (events : List MouseMove) :
    (deliverMouseMoves trackMouseMovement events).buffer.length = min events.length 50 := by
  have := deliverMouseMoves_length events trackMouseMovement 0 (by decide) (by decide)
  simpa using this

/-! ### The pointer-speed handler -/

/-- When an event carries the timestamp of the previous reference, `distance / time` is a
division by zero: `NaN` if the pointer has not moved, `Infinity` if it has. -/
theorem mouseSpeed_same_timestamp (last : LastMousePos) (e : MouseMove)
    (hsame : e.now = last.time) :
    mouseSpeed last e = if squaredDistance last e = 0 then .nan else .infinity := by
  simp [mouseSpeed, sqrtDiv, hsame]

/-- C2, the code at the failing input: with the reference (0, 0) recorded at time 1000,
a move to (3, 4) delivered at the same time 1000 stores the speed `Infinity`, and a move
to (0, 0) at that time stores `NaN`; neither stored speed is 0 or finite. -/
theorem mouseSpeed_same_timestamp_stores_infinity_or_nan :
    (mouseSpeedHandler BehaviorData.empty (initialLastMousePos 1000) ⟨3, 4, 1000⟩).1.mouseSpeed
        = [{ speed := .infinity, timestamp := 1000 }] ∧
    (mouseSpeedHandler BehaviorData.empty (initialLastMousePos 1000) ⟨0, 0, 1000⟩).1.mouseSpeed
        = [{ speed := .nan, timestamp := 1000 }] ∧
    JSNumber.infinity.isZero = false ∧ JSNumber.infinity.isFinite = false ∧
    JSNumber.nan.isZero = false ∧ JSNumber.nan.isFinite = false := by
  decide

/-! ### clearData -/

/-- C3: for every collector state, `clearData` leaves the five categories of
`behaviorData` (keystrokes, clicks, scrolls, focus, mouseSpeed) empty, and the record it
displays right afterwards has an empty sequence in each of them. -/
theorem clearData_empties_behavior (c : Collector) :
    (clearData c).behaviorData.keystrokes = [] ∧
    (clearData c).behaviorData.clicks = [] ∧
    (clearData c).behaviorData.scrolls = [] ∧
    (clearData c).behaviorData.focus = [] ∧
    (clearData c).behaviorData.mouseSpeed = [] ∧
    ∃ r, (clearData c).display = some r ∧
      r.behavior.keystrokes = [] ∧ r.behavior.clicks = [] ∧ r.behavior.scrolls = [] ∧
      r.behavior.focus = [] ∧ r.behavior.mouseSpeed = [] :=
  ⟨rfl, rfl, rfl, rfl, rfl, _, rfl, rfl, rfl, rfl, rfl, rfl⟩

/-- C4 as stated fails: on the sample host, after `init` and `collectAllData`, the font
probe result, audio fingerprint, capability report, canvas hash and graphics fingerprints
are stored and displayed; the record `clearData` displays has none of them, and a
`collectAllData` run right after the reset still has no `fingerprinting` entry. -/
theorem clearData_drops_generator_outputs_on_sample :
    ∃ c, sampleCollector = .ok c ∧
      c.collectedData.fingerprinting.isSome = true ∧
      c.collectedData.fingerprint.isSome = true ∧
      c.collectedData.webglExtended.isSome = true ∧
      (c.display.bind fun r => r.fingerprinting) = c.collectedData.fingerprinting ∧
      (∃ r, (clearData c).display = some r ∧ r.fingerprinting = none ∧
        r.fingerprint = none ∧ r.webglExtended = none) ∧
      ∃ c1 r1, collectAllData sampleHost (clearData c) = .ok c1 ∧ c1.display = some r1 ∧
        r1.fingerprinting = none :=
  ⟨_, rfl, rfl, rfl, rfl, rfl, ⟨_, rfl, rfl, rfl, rfl⟩, _, _, rfl, rfl, rfl⟩

/-- The method `collectAllData` never writes the `fingerprinting` entry of `collectedData`. -/
theorem collectAllData_fingerprinting (h : Host) (c c1 : Collector)
    (hagg : collectAllData h c = .ok c1) :
    c1.collectedData.fingerprinting = c.collectedData.fingerprinting ∧
    ∃ r1, c1.display = some r1 ∧ r1.fingerprinting = c.collectedData.fingerprinting := by
  unfold collectAllData at hagg
  simp only [bind, Except.bind, pure, Except.pure] at hagg
  cases hfp : fingerprintCanvas h
      (storeDirect h (storeDirect h (storeDirect h (storeDirect h c.collectedData "device")
        "network") "storage") "cookies") with
  | error e => rw [hfp] at hagg; cases hagg
  | ok d1 =>
    rw [hfp] at hagg
    simp only [] at hagg
    have hd1 : d1.fingerprinting = c.collectedData.fingerprinting := by
      unfold fingerprintCanvas at hfp
      simp only [bind, Except.bind, pure, Except.pure] at hfp
      cases hw : getWebGLFingerprint h.getContext with
      | error e => rw [hw] at hfp; cases hfp
      | ok w => rw [hw] at hfp; cases hfp; rfl
    cases hgl : collectWebGLData h
        (storeDirect h (collectBehaviorData h { c with collectedData := d1 }).collectedData
          "performance") with
    | error e => rw [hgl] at hagg; cases hagg
    | ok d2 =>
      rw [hgl] at hagg
      have hd2 : d2.fingerprinting = c.collectedData.fingerprinting := by
        unfold collectWebGLData at hgl
        cases hctx : webglContext h.getContext with
        | none => rw [hctx] at hgl; cases hgl; exact hd1
        | some gl =>
          rw [hctx] at hgl
          simp only [bind, Except.bind, pure, Except.pure] at hgl
          cases hr : readWebGLExtended gl with
          | error e => rw [hr] at hgl; cases hgl
          | ok rec => rw [hr] at hgl; cases hgl; exact hd1
      cases hagg
      exact ⟨hd2, _, rfl, hd2⟩

/-- The state a `collectAllData` leaves when it completes right after a reset: exactly
what it computes itself from the host. -/
theorem collectAllData_after_clearData (h : Host) (c c1 : Collector)
    (hagg : collectAllData h (clearData c) = .ok c1) :
    ∃ w, getWebGLFingerprint h.getContext = .ok w ∧
      c1.collectedData =
        { direct := [("device", h.directRead "device"), ("network", h.directRead "network"),
                     ("storage", h.directRead "storage"), ("cookies", h.directRead "cookies"),
                     ("performance", h.directRead "performance")],
          mouseTracking := none,
          fingerprinting := none,
          fingerprint := some { canvas := h.canvasDataURL, webgl := w },
          behavior := some
            { data := BehaviorData.empty, timeSpent := h.directRead "timeSpent",
              pageVisibility := h.directRead "pageVisibility",
              referrer := h.directRead "referrer", currentURL := h.directRead "currentURL" },
          webglExtended :=
            (webglContext h.getContext).bind fun gl => (readWebGLExtended gl).toOption } ∧
      c1.behaviorData = BehaviorData.empty ∧
      c1.display = some
        { direct := c1.collectedData.direct,
          mouseTracking := none,
          fingerprinting := none,
          fingerprint := some { canvas := h.canvasDataURL, webgl := w },
          webglExtended :=
            (webglContext h.getContext).bind fun gl => (readWebGLExtended gl).toOption,
          behavior := BehaviorData.empty } := by
  unfold collectAllData fingerprintCanvas at hagg
  simp only [bind, Except.bind, pure, Except.pure] at hagg
  cases hw : getWebGLFingerprint h.getContext with
  | error e => rw [hw] at hagg; cases hagg
  | ok w =>
    rw [hw] at hagg
    simp only [] at hagg
    refine ⟨w, rfl, ?_⟩
    unfold collectWebGLData at hagg
    cases hctx : webglContext h.getContext with
    | none =>
      rw [hctx] at hagg
      simp only [pure, Except.pure] at hagg
      cases hagg
      simp [updateDisplay, storeDirect, collectBehaviorData, clearData, CollectedData.empty,
        setProp]
    | some gl =>
      rw [hctx] at hagg
      simp only [bind, Except.bind, pure, Except.pure] at hagg
      cases hr : readWebGLExtended gl with
      | error e => rw [hr] at hagg; cases hagg
      | ok rec =>
        rw [hr] at hagg
        cases hagg
        simp [updateDisplay, storeDirect, collectBehaviorData, clearData, CollectedData.empty,
          setProp, hr, Except.toOption]

/-- C4 amended: for every collector state, `clearData` replaces `collectedData` by the
empty object, so the record it displays right after the reset has none of the generator
outputs (no `fingerprinting`, `fingerprint` or `webglExtended` entry, nor any other entry
of `collectedData`), only the five empty telemetry categories; and a `collectAllData` that
completes right after the reset stores and displays exactly what it computes itself from
the host: the five platform reads, `fingerprint` with the canvas hash and the result of
`getWebGLFingerprint`, the `behavior` entry, and `webglExtended` when a 3D context exists,
with no `fingerprinting` entry (font probe result, audio fingerprint, capability report)
and no `mouseTracking` entry. -/
theorem clearData_discards_generator_outputs (c : Collector) :
    (clearData c).collectedData = CollectedData.empty ∧
    (clearData c).display = some
      { direct := [], mouseTracking := none, fingerprinting := none, fingerprint := none,
        webglExtended := none, behavior := BehaviorData.empty } ∧
    ∀ (h : Host) (c1 : Collector), collectAllData h (clearData c) = .ok c1 →
      ∃ w, getWebGLFingerprint h.getContext = .ok w ∧
        c1.collectedData =
          { direct := [("device", h.directRead "device"), ("network", h.directRead "network"),
                       ("storage", h.directRead "storage"), ("cookies", h.directRead "cookies"),
                       ("performance", h.directRead "performance")],
            mouseTracking := none,
            fingerprinting := none,
            fingerprint := some { canvas := h.canvasDataURL, webgl := w },
            behavior := some
              { data := BehaviorData.empty, timeSpent := h.directRead "timeSpent",
                pageVisibility := h.directRead "pageVisibility",
                referrer := h.directRead "referrer", currentURL := h.directRead "currentURL" },
            webglExtended :=
              (webglContext h.getContext).bind fun gl => (readWebGLExtended gl).toOption } ∧
        c1.behaviorData = BehaviorData.empty ∧
        c1.display = some
          { direct := c1.collectedData.direct,
            mouseTracking := none,
            fingerprinting := none,
            fingerprint := some { canvas := h.canvasDataURL, webgl := w },
            webglExtended :=
              (webglContext h.getContext).bind fun gl => (readWebGLExtended gl).toOption,
            behavior := BehaviorData.empty } :=
  ⟨rfl, rfl, fun h c1 hagg => collectAllData_after_clearData h c c1 hagg⟩

/-- C4 amended, at the sample host: the reset of a collector that has recorded events,
followed by a `collectAllData` that completes; the canvas hash and both graphics
fingerprints are back, the `fingerprinting` and `mouseTracking` entries are not. -/
theorem clearData_discards_generator_outputs_witness :
    ∃ c c1, busyCollector = .ok c ∧ collectAllData sampleHost (clearData c) = .ok c1 ∧
      ∃ w, getWebGLFingerprint sampleHost.getContext = .ok w ∧
        c1.collectedData =
          { direct := [("device", .str "device"), ("network", .str "network"),
                       ("storage", .str "storage"), ("cookies", .str "cookies"),
                       ("performance", .str "performance")],
            mouseTracking := none,
            fingerprinting := none,
            fingerprint := some { canvas := .str "data:image/png;base64,AAAA", webgl := w },
            behavior := some
              { data := BehaviorData.empty, timeSpent := .str "timeSpent",
                pageVisibility := .str "pageVisibility",
                referrer := .str "referrer", currentURL := .str "currentURL" },
            webglExtended := (readWebGLExtended sampleGL).toOption } ∧
        c1.behaviorData = BehaviorData.empty ∧
        c1.display = some
          { direct := c1.collectedData.direct,
            mouseTracking := none,
            fingerprinting := none,
            fingerprint := some { canvas := .str "data:image/png;base64,AAAA", webgl := w },
            webglExtended := (readWebGLExtended sampleGL).toOption,
            behavior := BehaviorData.empty } :=
  ⟨_, _, rfl, rfl, (clearData_discards_generator_outputs _).2.2 sampleHost _ rfl⟩

/-! ### getFonts -/

/-- On values other than `NaN`, `!==` is plain inequality. -/
theorem strictNe_iff_ne (a b : Metric) (ha : a ≠ .nan) (hb : b ≠ .nan) :
    strictNe a b = true ↔ a ≠ b := by
  cases a <;> cases b <;> simp_all [strictNe]

/-- A loop that pushes the elements passing a test builds the filtered list. -/
theorem foldl_push_eq_filter (p : String → Bool) (l : List String) :
    ∀ acc : List String,
      l.foldl (fun fonts font => if p font then fonts ++ [font] else fonts) acc
        = acc ++ l.filter p := by
  induction l with
  | nil => intro acc; simp
  | cons x xs ih =>
    intro acc
    by_cases hp : p x = true
    · simp [List.foldl_cons, ih, hp]
    · simp [List.foldl_cons, ih, hp]

/-- The value of `detected` for a candidate: some baseline family shows a width or a
height that `!==` the baseline's own. -/
theorem detectFont_eq_any (m : String → TextMetrics) (font : String) :
    detectFont m (measureBaselines m).1 (measureBaselines m).2 font =
      baseFonts.any (fun base =>
        strictNe (m (stackFontSpec font base)).width (m (baseFontSpec base)).width ||
        strictNe (m (stackFontSpec font base)).height (m (baseFontSpec base)).height) := by
  simp [detectFont, measureBaselines, baseFonts, baseline, getProp, setProp, Bool.or_assoc]

/-- C5: for every text-measurement stub, `getFonts` returns exactly the candidates of the
13-font list, in list order and without repetition, for which some baseline family
(monospace, sans-serif, serif) has a width or a height measured for the stack
"candidate,baseline" that differs (`!==`) from that baseline's own; so a candidate equal to
the baseline in both dimensions for all three families is left out, and nothing outside the
candidate list is returned. -/
theorem getFonts_eq_filter (m : String → TextMetrics) :
    getFonts m = testFonts.filter (fun font =>
      baseFonts.any (fun base =>
        strictNe (m (stackFontSpec font base)).width (m (baseFontSpec base)).width ||
        strictNe (m (stackFontSpec font base)).height (m (baseFontSpec base)).height)) ∧
    (getFonts m).Sublist testFonts ∧
    (getFonts m).Nodup ∧
    testFonts.length = 13 ∧
    baseFonts = ["monospace", "sans-serif", "serif"] ∧
    ∀ font, font ∈ getFonts m ↔
      font ∈ testFonts ∧ ∃ base, base ∈ baseFonts ∧
        (strictNe (m (stackFontSpec font base)).width (m (baseFontSpec base)).width = true ∨
         strictNe (m (stackFontSpec font base)).height (m (baseFontSpec base)).height = true) := by
  have heq : getFonts m = testFonts.filter (fun font =>
      baseFonts.any (fun base =>
        strictNe (m (stackFontSpec font base)).width (m (baseFontSpec base)).width ||
        strictNe (m (stackFontSpec font base)).height (m (baseFontSpec base)).height)) := by
    unfold getFonts
    simp only []
    rw [foldl_push_eq_filter]
    simp only [List.nil_append]
    congr 1
    funext font
    exact detectFont_eq_any m font
  have hnodup : testFonts.Nodup := by decide
  refine ⟨heq, ?_, ?_, rfl, rfl, ?_⟩
  · rw [heq]; exact List.filter_sublist _
  · rw [heq]; exact hnodup.filter _
  · intro font
    rw [heq]
    simp only [List.mem_filter, List.any_eq_true, Bool.or_eq_true]

/-! ### Objects built key by key -/

/-- Assigning a key the object does not have appends the entry. -/
theorem setProp_of_not_mem {α : Type} (obj : List (String × α)) (key : String) (value : α)
    (hnew : key ∉ keys obj) : setProp obj key value = obj ++ [(key, value)] := by
  induction obj with
  | nil => rfl
  | cons kv rest ih =>
    obtain ⟨k, v⟩ := kv
    simp only [keys, List.map_cons, List.mem_cons, not_or] at hnew
    have hk : ¬ k = key := fun h => hnew.1 h.symm
    simp only [setProp, if_neg hk, List.cons_append]
    rw [ih (by simpa [keys] using hnew.2)]

/-- A `forEach` that assigns one computed value per name of a duplicate-free list lists
the names with their values. -/
theorem foldl_setProp_eq_map {α : Type} (f : String → α) (l : List String) :
    ∀ acc : List (String × α), l.Nodup → (∀ k, k ∈ l → k ∉ keys acc) →
      l.foldl (fun obj k => setProp obj k (f k)) acc = acc ++ l.map (fun k => (k, f k)) := by
  induction l with
  | nil => intro acc _ _; simp
  | cons x xs ih =>
    intro acc hnd hdisj
    rw [List.nodup_cons] at hnd
    rw [List.foldl_cons, setProp_of_not_mem acc x (f x) (hdisj x (List.mem_cons_self x xs))]
    rw [ih (acc ++ [(x, f x)]) hnd.2]
    · simp
    · intro k hk
      have h1 := hdisj k (List.mem_cons_of_mem x hk)
      have h2 : k ≠ x := fun h => hnd.1 (h ▸ hk)
      simp only [keys, List.map_append, List.map_cons, List.map_nil, List.mem_append,
        List.mem_singleton, not_or]
      exact ⟨by simpa [keys] using h1, h2⟩

/-- Reading a key of an object that lists one value per name. -/
theorem getProp_map {α : Type} (f : String → α) (l : List String) (key : String) :
    getProp (l.map (fun k => (k, f k))) key = if key ∈ l then some (f key) else none := by
  induction l with
  | nil => simp [getProp]
  | cons x xs ih =>
    by_cases hx : x = key
    · simp [getProp, hx]
    · have hx2 : ¬ key = x := fun h => hx h.symm
      simp [getProp, hx, hx2, ih]

/-! ### checkAPI and getAvailableAPIs -/

/-- The report of `getAvailableAPIs` lists every catalog name with its `checkAPI` value. -/
theorem getAvailableAPIs_eq_map (p : Platform) :
    getAvailableAPIs p = apis.map (fun api => (api, checkAPI p api)) := by
  have h := foldl_setProp_eq_map (checkAPI p) apis [] (by decide) (by intro k _; simp [keys])
  simpa [getAvailableAPIs] using h

/-- C6: for every identifier that is not one of the 18 names of `checkAPI`'s dispatch
table and every platform state, `checkAPI` returns false (it is a total function, so it
does not fail); the catalog names outside the table are exactly the nine FileReader,
Blob, FormData, URLSearchParams, GamepadAPI, WebVR, WebXR, AmbientLight and Proximity, and
the report of `getAvailableAPIs` maps such a name to false whatever the platform offers. -/
theorem checkAPI_unknown_false (p : Platform) (api : String) (hunknown : api ∉ dispatchNames) :
    checkAPI p api = false ∧
    getProp (getAvailableAPIs p) api = (if api ∈ apis then some false else none) ∧
    apis.filter (fun name => decide (name ∉ dispatchNames)) =
      ["FileReader", "Blob", "FormData", "URLSearchParams", "GamepadAPI", "WebVR", "WebXR",
       "AmbientLight", "Proximity"] ∧
    dispatchNames.length = 18 ∧ apis.length = 27 := by
  have hfalse : checkAPI p api = false := by
    simp only [dispatchNames, List.mem_cons, List.mem_singleton, List.mem_nil_iff, not_or,
      or_false] at hunknown
    unfold checkAPI
    split <;> simp_all
  refine ⟨hfalse, ?_, by decide, rfl, rfl⟩
  rw [getAvailableAPIs_eq_map, getProp_map, hfalse]

/-- C6 on a platform that offers everything: `FileReader` is outside the dispatch table,
`checkAPI` returns false for it and the report says false. -/
theorem checkAPI_unknown_false_witness :
    "FileReader" ∉ dispatchNames ∧ checkAPI fullPlatform "FileReader" = false ∧
    getProp (getAvailableAPIs fullPlatform) "FileReader" = some false :=
  ⟨by decide, (checkAPI_unknown_false fullPlatform "FileReader" (by decide)).1,
   by simpa using (checkAPI_unknown_false fullPlatform "FileReader" (by decide)).2.1⟩

/-! ### getWebGLParameters -/

/-- The entry a catalog name contributes: its value when the read returns, nothing when
the read throws. -/
theorem readParameter_eq (gl : GLContext) (parameters : List (String × JSValue))
    (param : String) :
    readParameter gl parameters param =
      .ok (match gl.read param with
           | .ok value => setProp parameters param value
           | .error _ => parameters) := by
  unfold readParameter tryCatch
  cases gl.read param <;> rfl

/-- The loop of `getWebGLParameters` over a duplicate-free list of names not yet in the
object: it never throws, and appends one entry per name whose read returns. -/
theorem foldlM_readParameter (gl : GLContext) (l : List String) :
    ∀ acc : List (String × JSValue), l.Nodup → (∀ k, k ∈ l → k ∉ keys acc) →
      l.foldlM (readParameter gl) acc =
        .ok (acc ++ l.filterMap (fun name => (gl.read name).toOption.map (fun v => (name, v)))) := by
  induction l with
  | nil => intro acc _ _; simp [pure, Except.pure]
  | cons x xs ih =>
    intro acc hnd hdisj
    rw [List.nodup_cons] at hnd
    rw [List.foldlM_cons, readParameter_eq]
    simp only [bind, Except.bind]
    cases hx : gl.read x with
    | error e =>
      simp only []
      rw [ih acc hnd.2 (fun k hk => hdisj k (List.mem_cons_of_mem x hk))]
      simp [hx, Except.toOption]
    | ok v =>
      simp only []
      rw [setProp_of_not_mem acc x v (hdisj x (List.mem_cons_self x xs))]
      rw [ih (acc ++ [(x, v)]) hnd.2]
      · simp [hx, Except.toOption]
      · intro k hk
        have h1 := hdisj k (List.mem_cons_of_mem x hk)
        have h2 : k ≠ x := fun h => hnd.1 (h ▸ hk)
        simp only [keys, List.map_append, List.map_cons, List.map_nil, List.mem_append,
          List.mem_singleton, not_or]
        exact ⟨by simpa [keys] using h1, h2⟩

/-- The keys of an object built from the names that have a value. -/
theorem keys_filterMap {α : Type} (g : String → Option α) (l : List String) :
    keys (l.filterMap (fun name => (g name).map (fun v => (name, v)))) =
      l.filter (fun name => (g name).isSome) := by
  induction l with
  | nil => rfl
  | cons x xs ih =>
    cases hx : g x with
    | none => simpa [List.filterMap_cons, List.filter_cons, hx] using ih
    | some v => simpa [List.filterMap_cons, List.filter_cons, hx, keys] using ih

/-- Reading a key of an object built from the names that have a value. -/
theorem getProp_filterMap {α : Type} (g : String → Option α) (l : List String)
    (key : String) :
    getProp (l.filterMap (fun name => (g name).map (fun v => (name, v)))) key =
      if key ∈ l then g key else none := by
  induction l with
  | nil => simp [getProp]
  | cons x xs ih =>
    by_cases hkx : x = key
    · subst hkx
      cases hx : g x with
      | none =>
        simp only [List.filterMap_cons, hx, Option.map_none', ih, List.mem_cons, true_or,
          if_true]
        split <;> rfl
      | some v => simp [List.filterMap_cons, hx, getProp]
    · have hkx2 : ¬ key = x := fun h => hkx h.symm
      cases hx : g x with
      | none => simp [List.filterMap_cons, hx, ih, hkx2]
      | some v => simp [List.filterMap_cons, hx, getProp, ih, hkx, hkx2]

/-- A read has a value exactly when it returns. -/
theorem isSome_toOption_eq_returns {α : Type} (r : Except JSError α) :
    r.toOption.isSome = returns r := by
  cases r <;> rfl

/-- The method `getWebGLParameters` never throws: it returns one entry per catalog name
whose read returns. -/
theorem getWebGLParameters_eq (gl : GLContext) :
    getWebGLParameters gl =
      .ok (params.filterMap (fun name => (gl.read name).toOption.map (fun v => (name, v)))) := by
  have h := foldlM_readParameter gl params [] (by decide) (by intro k _; simp [keys])
  simpa [getWebGLParameters] using h

/-- C7: for every 3D context stub, whichever of the 19 catalog names throw when read,
`getWebGLParameters` returns (it does not throw) a mapping whose keys are exactly the
catalog names whose read returns, in catalog order, each mapped to the value
`getParameter` returned for it; a name whose read throws is left out, and so is any name
outside the catalog. -/
theorem getWebGLParameters_omits_throwing (gl : GLContext) :
    ∃ parameters, getWebGLParameters gl = .ok parameters ∧
      keys parameters = params.filter (fun name => returns (gl.read name)) ∧
      (∀ name, getProp parameters name =
        if name ∈ params then (gl.read name).toOption else none) ∧
      params.length = 19 := by
  refine ⟨params.filterMap (fun name => (gl.read name).toOption.map (fun v => (name, v))),
    getWebGLParameters_eq gl, ?_,
    fun name => getProp_filterMap (fun name => (gl.read name).toOption) params name, rfl⟩
  · rw [keys_filterMap (fun name => (gl.read name).toOption) params]
    congr 1
    funext name
    exact isSome_toOption_eq_returns _

/-! ### The graphics probes -/

/-- C8, the code at the failing inputs: on a host whose 3D context throws when `VENDOR`
is read, `getWebGLFingerprint` and `collectWebGLData` both throw and `collectAllData` is
aborted with that exception (while `init` and `getWebGLParameters` complete); on a host
whose `getSupportedExtensions` throws, `collectWebGLData` throws and aborts
`collectAllData` as well. -/
theorem graphics_probes_rethrow :
    getWebGLFingerprint throwingHost.getContext = .error { message := "context lost" } ∧
    collectWebGLData throwingHost CollectedData.empty = .error { message := "context lost" } ∧
    returns (init throwingHost) = true ∧
    returns (getWebGLParameters throwingGL) = true ∧
    (init throwingHost >>= collectAllData throwingHost) = .error { message := "context lost" } ∧
    collectWebGLData lostExtensionsHost CollectedData.empty
      = .error { message := "context lost" } ∧
    (init lostExtensionsHost >>= collectAllData lostExtensionsHost)
      = .error { message := "context lost" } :=
  ⟨rfl, rfl, rfl, rfl, rfl, rfl, rfl⟩

/-- C9: for every stub host whose 3D context reports vendor `v`, renderer `r`, version,
shading-language version and extension list `E` without throwing, `collectWebGLData`
throws no error and stores under `webglExtended` the record with `vendor = v`,
`renderer = r`, `extensions = E` (unchanged, so in the same order), the reported
`version` and `shadingLanguageVersion`, and the mapping of `getWebGLParameters` as
`parameters` (the fields of the record are, in order, vendor, renderer, version,
shadingLanguageVersion, extensions, parameters). -/
theorem collectWebGLData_stores_record (h : Host) (d : CollectedData) (gl : GLContext)
    (v r ver slv E : JSValue)
    (hctx : webglContext h.getContext = some gl)
    (hv : gl.read "VENDOR" = .ok v) (hr : gl.read "RENDERER" = .ok r)
    (hver : gl.read "VERSION" = .ok ver)
    (hslv : gl.read "SHADING_LANGUAGE_VERSION" = .ok slv)
    (hext : gl.getSupportedExtensions = .ok E) :
    ∃ parameters, getWebGLParameters gl = .ok parameters ∧
      collectWebGLData h d =
        .ok { d with webglExtended := some ⟨v, r, ver, slv, E, parameters⟩ } := by
  have hp := getWebGLParameters_eq gl
  refine ⟨_, hp, ?_⟩
  simp [collectWebGLData, hctx, readWebGLExtended, hv, hr, hver, hslv, hext, hp, bind,
    Except.bind, pure, Except.pure]

/-- C9 on the spec's stub (vendor "X", renderer "Y", extensions ["A", "B"]). -/
theorem collectWebGLData_stores_record_witness :
    ∃ parameters, getWebGLParameters sampleGL = .ok parameters ∧
      collectWebGLData sampleHost CollectedData.empty =
        .ok { CollectedData.empty with
              webglExtended := some ⟨.str "X", .str "Y", .str "WebGL 1.0",
                .str "WebGL GLSL ES 1.0", .strs ["A", "B"], parameters⟩ } :=
  collectWebGLData_stores_record sampleHost CollectedData.empty sampleGL
    (.str "X") (.str "Y") (.str "WebGL 1.0") (.str "WebGL GLSL ES 1.0") (.strs ["A", "B"])
    rfl rfl rfl rfl rfl rfl

/-! ### getAudioFingerprint -/

/-- A statement followed by the rest of a block returns when both return. -/
theorem returns_bind_unit {β : Type} (x : Except JSError Unit) (k : Unit → Except JSError β) :
    returns (x >>= k) = (returns x && returns (k ())) := by
  cases x <;> rfl

/-- The graph is built and started exactly when each of its twelve statements returns. -/
theorem returns_buildAudioGraph (a : AudioHost) :
    returns (buildAudioGraph a) = (graphSteps a).all returns := by
  simp only [buildAudioGraph, graphSteps, returns_bind_unit, List.all_cons, List.all_nil,
    Bool.and_true]

/-- A failed build is answered by the `catch` block. -/
theorem getAudioFingerprint_of_build_fails (a : AudioHost)
    (hfail : returns (buildAudioGraph a) = false) :
    getAudioFingerprint a = .ok .notAvailable := by
  unfold getAudioFingerprint tryCatch
  cases hb : buildAudioGraph a with
  | ok u => rw [hb] at hfail; cases hfail
  | error e => rfl

/-- The result of `getAudioFingerprint` is the sentinel or a record, never an exception. -/
theorem getAudioFingerprint_cases (a : AudioHost) :
    getAudioFingerprint a = .ok .notAvailable ∨
      ∃ rec, getAudioFingerprint a = .ok (.record rec) ∧
        a.sampleRate = .ok rec.sampleRate ∧ a.maxChannelCount = .ok rec.maxChannelCount ∧
        a.numberOfInputs = .ok rec.numberOfInputs ∧
        a.numberOfOutputs = .ok rec.numberOfOutputs ∧
        a.channelCount = .ok rec.channelCount := by
  cases hb : buildAudioGraph a with
  | error e =>
    left
    exact getAudioFingerprint_of_build_fails a (by rw [hb]; rfl)
  | ok u =>
    cases h1 : a.sampleRate with
    | error e => left; simp [getAudioFingerprint, tryCatch, readAudioConfig, hb, h1, bind,
        Except.bind, pure, Except.pure]
    | ok v1 =>
    cases h2 : a.maxChannelCount with
    | error e => left; simp [getAudioFingerprint, tryCatch, readAudioConfig, hb, h1, h2, bind,
        Except.bind, pure, Except.pure]
    | ok v2 =>
    cases h3 : a.numberOfInputs with
    | error e => left; simp [getAudioFingerprint, tryCatch, readAudioConfig, hb, h1, h2, h3,
        bind, Except.bind, pure, Except.pure]
    | ok v3 =>
    cases h4 : a.numberOfOutputs with
    | error e => left; simp [getAudioFingerprint, tryCatch, readAudioConfig, hb, h1, h2, h3,
        h4, bind, Except.bind, pure, Except.pure]
    | ok v4 =>
    cases h5 : a.channelCount with
    | error e => left; simp [getAudioFingerprint, tryCatch, readAudioConfig, hb, h1, h2, h3,
        h4, h5, bind, Except.bind, pure, Except.pure]
    | ok v5 =>
      right
      refine ⟨⟨v1, v2, v3, v4, v5⟩, ?_, rfl, rfl, rfl, rfl, rfl⟩
      simp [getAudioFingerprint, tryCatch, readAudioConfig, hb, h1, h2, h3, h4, h5, bind,
        Except.bind, pure, Except.pure]

/-- C10: `getAudioFingerprint` never throws; on a host where some statement that builds
or starts the audio graph fails (the constructor is missing, or a node creation, a setting,
a connection or the start throws) it returns the sentinel `'not_available'`; on a host
where every statement and every one of the five reads returns, it returns a record holding
the five values `sampleRate`, `maxChannelCount`, `numberOfInputs`, `numberOfOutputs`,
`channelCount` read from the host; and on every host its result is the sentinel or such a
full record. -/
theorem getAudioFingerprint_sentinel_or_record (a : AudioHost) :
    returns (getAudioFingerprint a) = true ∧
    ((graphSteps a).all returns = false → getAudioFingerprint a = .ok .notAvailable) ∧
    ((graphSteps a).all returns = true → (configReads a).all returns = true →
      ∃ rec, getAudioFingerprint a = .ok (.record rec) ∧
        a.sampleRate = .ok rec.sampleRate ∧ a.maxChannelCount = .ok rec.maxChannelCount ∧
        a.numberOfInputs = .ok rec.numberOfInputs ∧
        a.numberOfOutputs = .ok rec.numberOfOutputs ∧
        a.channelCount = .ok rec.channelCount) ∧
    (getAudioFingerprint a = .ok .notAvailable ∨
      ∃ rec, getAudioFingerprint a = .ok (.record rec)) := by
  have hcases := getAudioFingerprint_cases a
  refine ⟨?_, ?_, ?_, ?_⟩
  · rcases hcases with h | ⟨rec, h, _⟩ <;> rw [h] <;> rfl
  · intro hfail
    exact getAudioFingerprint_of_build_fails a (by rw [returns_buildAudioGraph]; exact hfail)
  · intro hbuild hreads
    rcases hcases with h | ⟨rec, h, hrest⟩
    · exfalso
      have hb : returns (buildAudioGraph a) = true := by
        rw [returns_buildAudioGraph]; exact hbuild
      simp only [configReads, List.all_cons, List.all_nil, Bool.and_true,
        Bool.and_eq_true] at hreads
      obtain ⟨r1, r2, r3, r4, r5⟩ := hreads
      cases hb2 : buildAudioGraph a with
      | error e => rw [hb2] at hb; cases hb
      | ok u =>
        cases h1 : a.sampleRate with
        | error e => rw [h1] at r1; cases r1
        | ok v1 =>
        cases h2 : a.maxChannelCount with
        | error e => rw [h2] at r2; cases r2
        | ok v2 =>
        cases h3 : a.numberOfInputs with
        | error e => rw [h3] at r3; cases r3
        | ok v3 =>
        cases h4 : a.numberOfOutputs with
        | error e => rw [h4] at r4; cases r4
        | ok v4 =>
        cases h5 : a.channelCount with
        | error e => rw [h5] at r5; cases r5
        | ok v5 =>
          simp [getAudioFingerprint, tryCatch, readAudioConfig, hb2, h1, h2, h3, h4, h5, bind,
            Except.bind, pure, Except.pure] at h
    · exact ⟨rec, h, hrest⟩
  · rcases hcases with h | ⟨rec, h, _⟩
    · exact Or.inl h
    · exact Or.inr ⟨rec, h⟩

/-- C10 on two hosts: one whose autoplay policy makes `oscillator.start(0)` throw gets the
sentinel; one on which everything succeeds gets the full record of the host's values. -/
theorem getAudioFingerprint_sentinel_or_record_witness :
    ((graphSteps blockedAudio).all returns = false ∧
      getAudioFingerprint blockedAudio = .ok .notAvailable) ∧
    ((graphSteps sampleAudio).all returns = true ∧ (configReads sampleAudio).all returns = true ∧
      ∃ rec, getAudioFingerprint sampleAudio = .ok (.record rec) ∧
        sampleAudio.sampleRate = .ok rec.sampleRate ∧
        sampleAudio.maxChannelCount = .ok rec.maxChannelCount ∧
        sampleAudio.numberOfInputs = .ok rec.numberOfInputs ∧
        sampleAudio.numberOfOutputs = .ok rec.numberOfOutputs ∧
        sampleAudio.channelCount = .ok rec.channelCount) :=
  ⟨⟨rfl, (getAudioFingerprint_sentinel_or_record blockedAudio).2.1 rfl⟩,
   ⟨rfl, rfl, (getAudioFingerprint_sentinel_or_record sampleAudio).2.2.1 rfl rfl⟩⟩

/-! ### The pointer-position window -/

/-- Pushing onto the last 50 of a list and cutting again gives the last 50 of the longer
list. -/
theorem sliding_window_step (samples : List PointerSample) (s : PointerSample) :
    (if (samples.drop (samples.length - 50) ++ [s]).length > 50 then
        sliceLast50 (samples.drop (samples.length - 50) ++ [s])
      else samples.drop (samples.length - 50) ++ [s]) =
      (samples ++ [s]).drop ((samples ++ [s]).length - 50) := by
  have hdrop : (samples ++ [s]).drop (samples.length - 50) =
      samples.drop (samples.length - 50) ++ [s] :=
    List.drop_append_of_le_length (by omega)
  split
  · rename_i h
    simp only [List.length_append, List.length_drop, List.length_singleton] at h
    simp only [sliceLast50, List.length_append, List.length_drop, List.length_singleton]
    rw [← hdrop, List.drop_drop]
    congr 1
    omega
  · rename_i h
    simp only [List.length_append, List.length_drop, List.length_singleton] at h
    rw [← hdrop]
    congr 1
    simp only [List.length_append, List.length_singleton]
    omega

/-- Delivering events to a tracker whose buffer is the last 50 of the samples so far
leaves it with the last 50 of all the samples. -/
theorem deliverMouseMoves_buffer (events : List MouseMove) :
    ∀ (t : MouseTracker) (samples : List PointerSample), t.mouseData < t.heap.length →
      t.buffer = samples.drop (samples.length - 50) →
      (deliverMouseMoves t events).buffer =
        (samples ++ events.map pointerSample).drop
          ((samples ++ events.map pointerSample).length - 50) := by
  induction events with
  | nil => intro t samples _ hbuf; simpa [deliverMouseMoves] using hbuf
  | cons e es ih =>
    intro t samples hv hbuf
    have hstep : (mouseTrackingHandler t e).buffer =
        (samples ++ [pointerSample e]).drop ((samples ++ [pointerSample e]).length - 50) := by
      rw [mouseTrackingHandler_buffer t e hv, hbuf]
      exact sliding_window_step samples (pointerSample e)
    have := ih (mouseTrackingHandler t e) (samples ++ [pointerSample e])
      (mouseTrackingHandler_valid t e hv) hstep
    simpa [deliverMouseMoves] using this

/-- C12: for every sequence of N mousemove events, after the N-th handler call the array
held by `mouseData` is exactly the last min(N, 50) delivered samples in delivery order:
the delivered samples are the evicted ones (the oldest N - 50, when N exceeds 50)
followed by the buffer, so nothing is reordered or duplicated. -/
theorem mouseData_eq_last_fifty (events : List MouseMove) :
    (deliverMouseMoves trackMouseMovement events).buffer =
      (events.map pointerSample).drop (events.length - 50) ∧
    (deliverMouseMoves trackMouseMovement events).buffer.length = min events.length 50 ∧
    events.map pointerSample =
      (events.map pointerSample).take (events.length - 50) ++
        (deliverMouseMoves trackMouseMovement events).buffer := by
  have h := deliverMouseMoves_buffer events trackMouseMovement [] (by decide) (by decide)
  simp only [List.nil_append, List.length_map] at h
  refine ⟨h, ?_, ?_⟩
  · rw [h, List.length_drop, List.length_map]
    omega
  · rw [h, List.take_append_drop]

/-! ### The array behind collectedData.mouseTracking -/

/-- The first array of a non-empty heap after a write at some index and an allocation: the
written array if the index is 0, the old first array otherwise. -/
theorem getD_zero_set_append (heap : List (List PointerSample)) (i : Nat)
    (xs : List PointerSample) (extra : List (List PointerSample)) (hpos : 0 < heap.length) :
    (heap.set i xs ++ extra).getD 0 [] = if i = 0 then xs else heap.getD 0 [] := by
  cases heap with
  | nil => simp at hpos
  | cons a rest => cases i <;> simp [List.set]

/-- One handler call pushes onto the array behind `collectedData.mouseTracking` only while
`mouseData` still refers to it. -/
theorem mouseTrackingHandler_array (t : MouseTracker) (e : MouseMove)
    (hv : t.mouseData < t.heap.length) :
    mouseTrackingArray (mouseTrackingHandler t e) =
      if t.mouseData = 0 then t.buffer ++ [pointerSample e] else mouseTrackingArray t := by
  have hpos : 0 < t.heap.length := by omega
  by_cases hc : (t.buffer ++ [pointerSample e]).length > 50
  · simp only [mouseTrackingHandler, if_pos hc, mouseTrackingArray, MouseTracker.deref,
      trackMouseMovementRef, trackMouseMovement]
    exact getD_zero_set_append t.heap t.mouseData _ _ hpos
  · simp only [mouseTrackingHandler, if_neg hc, mouseTrackingArray, MouseTracker.deref,
      trackMouseMovementRef, trackMouseMovement]
    have := getD_zero_set_append t.heap t.mouseData (t.buffer ++ [pointerSample e]) [] hpos
    simpa using this

/-- The reference `mouseData` after one handler call: a freshly allocated array when the
pushed array is longer than 50, the same array otherwise. -/
theorem mouseTrackingHandler_mouseData (t : MouseTracker) (e : MouseMove) :
    (mouseTrackingHandler t e).mouseData =
      if (t.buffer ++ [pointerSample e]).length > 50 then t.heap.length else t.mouseData := by
  by_cases hc : (t.buffer ++ [pointerSample e]).length > 50
  · simp only [mouseTrackingHandler, if_pos hc, List.length_set]
  · simp only [mouseTrackingHandler, if_neg hc]

/-- One handler call keeps the relation `Exposed`, with the new sample added. -/
theorem exposed_step (t : MouseTracker) (samples : List PointerSample) (e : MouseMove)
    (h : Exposed t samples) :
    Exposed (mouseTrackingHandler t e) (samples ++ [pointerSample e]) := by
  obtain ⟨hv, harr, hsh⟩ := h
  have hpos : 0 < t.heap.length := by omega
  by_cases h0 : t.mouseData = 0
  · have hL : samples.length ≤ 50 := hsh.mp h0
    have hbuf : t.buffer = samples := by
      have : t.buffer = mouseTrackingArray t := by
        simp [MouseTracker.buffer, mouseTrackingArray, trackMouseMovementRef,
          trackMouseMovement, h0]
      rw [this, harr, List.take_of_length_le (by omega)]
    refine ⟨mouseTrackingHandler_valid t e hv, ?_, ?_⟩
    · rw [mouseTrackingHandler_array t e hv, if_pos h0, hbuf]
      exact (List.take_of_length_le (by simp; omega)).symm
    · rw [mouseTrackingHandler_mouseData, hbuf]
      simp only [List.length_append, List.length_singleton]
      split <;> omega
  · have hL : 50 < samples.length := by
      by_contra hcon
      exact h0 (hsh.mpr (by omega))
    refine ⟨mouseTrackingHandler_valid t e hv, ?_, ?_⟩
    · rw [mouseTrackingHandler_array t e hv, if_neg h0, harr]
      exact (List.take_append_of_le_length (by omega)).symm
    · rw [mouseTrackingHandler_mouseData]
      simp only [List.length_append, List.length_singleton]
      split <;> omega

/-- A delivery sequence keeps the relation `Exposed`, with its samples added. -/
theorem exposed_deliver (events : List MouseMove) :
    ∀ (t : MouseTracker) (samples : List PointerSample), Exposed t samples →
      Exposed (deliverMouseMoves t events) (samples ++ events.map pointerSample) := by
  induction events with
  | nil => intro t samples h; simpa [deliverMouseMoves] using h
  | cons e es ih =>
    intro t samples h
    have := ih (mouseTrackingHandler t e) _ (exposed_step t samples e h)
    simpa [deliverMouseMoves] using this

/-- The relation `Exposed` holds when `trackMouseMovement` returns. -/
theorem exposed_init : Exposed trackMouseMovement [] :=
  ⟨by decide, rfl, by decide⟩

/-- After any delivery sequence the array behind `collectedData.mouseTracking` holds the
first 51 delivered samples: it grows to 51 elements and is never written again. -/
theorem mouseTrackingArray_eq_take (events : List MouseMove) :
    mouseTrackingArray (deliverMouseMoves trackMouseMovement events) =
      (events.map pointerSample).take 51 := by
  have := (exposed_deliver events trackMouseMovement [] exposed_init).array
  simpa using this

set_option maxRecDepth 100000 in
/-- C11, the code at the failing input: on the sample host, after `init`, fifty-one
mousemove events and a `collectAllData`, the `mouseTracking` sequence of the displayed
record is the array of all 51 delivered samples, one more than the cap, while the
handler's own buffer holds 50. -/
theorem mouseTracking_exposes_fifty_one :
    ∃ c r, afterFiftyOneMoves = .ok c ∧ c.display = some r ∧
      r.mouseTracking = some (fiftyOneMoves.map pointerSample) ∧
      r.mouseTracking.map List.length = some 51 ∧
      c.tracker.buffer.length = 50 :=
  ⟨_, _, rfl, rfl, rfl, rfl, rfl⟩

/-! ### The pointer-speed sample -/

/-- The closure variables as `init` leaves them: a fresh tracker, and the reference
position (0, 0) stamped with `Date.now()`. -/
theorem init_closures (h : Host) (c : Collector) (hinit : init h = .ok c) :
    c.lastMousePos = initialLastMousePos h.now ∧ c.tracker = trackMouseMovement ∧
    c.behaviorData = BehaviorData.empty := by
  unfold init collectAdvancedFingerprinting at hinit
  simp only [bind, Except.bind, pure, Except.pure] at hinit
  cases ha : getAudioFingerprint h.audio with
  | error e => rw [ha] at hinit; cases hinit
  | ok a => rw [ha] at hinit; cases hinit; exact ⟨rfl, rfl, rfl⟩

/-- What the mousemove handler of `setupBehaviorTracking` does apart from the arithmetic:
it pushes one sample, stamped with the event's time, onto `mouseSpeed` alone, and
overwrites `lastMousePos` with the event's position and time. -/
theorem mouseSpeedHandler_pushes_one (b : BehaviorData) (last : LastMousePos) (e : MouseMove) :
    (mouseSpeedHandler b last e).1 =
      { b with mouseSpeed := b.mouseSpeed ++ [{ speed := mouseSpeed last e, timestamp := e.now }] } ∧
    (mouseSpeedHandler b last e).2 = { x := e.clientX, y := e.clientY, time := e.now } :=
  ⟨rfl, rfl⟩

end DataCollector
